import Mathlib

/-!
Verification development for the vox-relay voice-message-to-email relay bot.

The repository chains: Telegram voice download → Whisper transcription →
GPT email-field extraction → user yes/no confirmation → SMTP delivery.
This file gives a shallow embedding of the components the verified
properties are about:

* `GptService.extractEmailFields` (src/unnamed/part_000) — extraction with
  zod validation of the returned draft;
* `TelegramService.handleVoiceMessage` and its confirmation message handler
  (src/src/modules/telegram/telegram.service.ts) — the orchestrator;
* the Transcription Client (`WhisperService.transcribe`) and the Delivery
  Client (`EmailService`), whose source files are not among the provided
  sources and are therefore modelled from the specification (their
  definitions say so in their doc comments).

External effects (network calls, filesystem, chat replies) are embedded as
explicit outcome parameters and event/reply traces.
-/

deriving instance DecidableEq for Except

namespace VoxRelay

/-! ## Data model -/

/-- An email draft extracted from a transcript (interface `ExtractedEmail`
in src/unnamed/part_000). The source's field `to` is named `toAddr` here
because `to` is a reserved token in Lean. -/
structure ExtractedEmail where
  toAddr : String
  subject : String
  body : String
deriving DecidableEq, Repr

/-- Token-usage counters attached to an extraction response
(`GptResponse.usage` in src/unnamed/part_000). -/
structure Usage where
  promptTokens : Nat
  completionTokens : Nat
  totalTokens : Nat
deriving DecidableEq, Repr

/-- A successful extraction result: the validated draft plus usage counters
(`GptResponse<ExtractedEmail>` in src/unnamed/part_000). -/
structure GptResponseEmail where
  data : ExtractedEmail
  usage : Usage
deriving DecidableEq, Repr

/-! ## Syntactic email validation (zod `z.string().email()`)

The zod library's email check is a fixed regex over the string: a local
part of alphanumerics and `_ + - .` (not starting or ending with a dot, no
two consecutive dots), a single `@`, and a dot-separated domain whose
labels start alphanumeric and whose final label is at least two letters.
It is embedded below as a decidable Boolean predicate on the char list. -/

def emailLocalChar (c : Char) : Bool :=
  c.isAlphanum || c = '_' || c = '+' || c = '-' || c = '.'

def emailLabelChar (c : Char) : Bool :=
  c.isAlphanum || c = '-'

def noDoubleDot : List Char → Bool
  | [] => true
  | [_] => true
  | a :: b :: rest => !(a = '.' && b = '.') && noDoubleDot (b :: rest)

def validLocalPart (l : List Char) : Bool :=
  !l.isEmpty && l.all emailLocalChar && !(l.head? = some '.') && noDoubleDot l &&
    (match l.getLast? with
     | some c => !(c = '.')
     | none => false)

def validDomainLabel (s : List Char) : Bool :=
  match s with
  | [] => false
  | c :: rest => c.isAlphanum && rest.all emailLabelChar

def validTld (s : List Char) : Bool :=
  decide (2 ≤ s.length) && s.all Char.isAlpha

def zodEmailValid (s : String) : Bool :=
  match s.data.splitOn '@' with
  | [l, d] =>
      validLocalPart l &&
        (let labels := d.splitOn '.'
         match labels.getLast? with
         | none => false
         | some tld =>
             decide (2 ≤ labels.length) && validTld tld &&
               labels.dropLast.all validDomainLabel)
  | _ => false

/-! ## GptService.extractEmailFields (src/unnamed/part_000, lines 63-123) -/

/-- The zod `emailSchema` of src/unnamed/part_000 lines 23-27: the list of
validation issues for a parsed response object, in schema order. An empty
list means the object validates. -/
def emailSchemaIssues (o : ExtractedEmail) : List String :=
  (if zodEmailValid o.toAddr then [] else ["to: Invalid email address"]) ++
  (if 1 ≤ o.subject.length then [] else ["subject: Subject cannot be empty"]) ++
  (if 1 ≤ o.body.length then [] else ["body: Body cannot be empty"])

/-- `emailSchema.parse(parsedResponse)`: the validated draft, or the
ZodError's issue list. -/
def emailSchemaParse (o : ExtractedEmail) : Except (List String) ExtractedEmail :=
  match emailSchemaIssues o with
  | [] => .ok o
  | errs => .error errs

/-- Outcome of the chat-completion call plus `JSON.parse` of its content,
as seen by `extractEmailFields`. `jsonObject` carries the three string
fields of a successfully parsed JSON object. -/
inductive GptReply
  | apiFailure (msg : String)
  | noContent
  | malformedJson
  | jsonObject (o : ExtractedEmail)
deriving DecidableEq, Repr

/-- Errors thrown by `extractEmailFields`: NestJS `BadRequestException`
(a validation error) or a plain `Error`. -/
inductive ExtractError
  | badRequest (msg : String)
  | internalError (msg : String)
deriving DecidableEq, Repr

/-- JavaScript `!text?.trim()`: true when the string is empty after
trimming, i.e. all characters are whitespace. -/
def jsTrimEmpty (s : String) : Bool :=
  s.data.all Char.isWhitespace

/-- `GptService.extractEmailFields` (src/unnamed/part_000 lines 63-123).
The network reply and usage counters are explicit parameters; the optional
generation config is not modelled (its defaults always validate and no
verified property concerns it). Error translation follows the source's
catch block: a ZodError becomes `BadRequestException` with the fixed
message "Invalid response format from GPT", a JSON SyntaxError becomes
"Invalid JSON response from GPT", anything else is wrapped in a plain
`Error`. -/
def extractEmailFields (text : String) (reply : GptReply) (usage : Usage) :
    Except ExtractError GptResponseEmail :=
  if jsTrimEmpty text then .error (.badRequest "Text cannot be empty")
  else
    match reply with
    | .apiFailure msg => .error (.internalError ("Failed to extract email fields: " ++ msg))
    | .noContent => .error (.internalError "Failed to extract email fields: No response from GPT")
    | .malformedJson => .error (.badRequest "Invalid JSON response from GPT")
    | .jsonObject o =>
        match emailSchemaParse o with
        | .error _ => .error (.badRequest "Invalid response format from GPT")
        | .ok e => .ok ⟨e, usage⟩

/-! ## Substring helper (to state that an error message names a field) -/

def listPrefixOf : List Char → List Char → Bool
  | [], _ => true
  | _ :: _, [] => false
  | a :: as, b :: bs => a = b && listPrefixOf as bs

def listContainsSub (needle : List Char) : List Char → Bool
  | [] => listPrefixOf needle []
  | c :: rest => listPrefixOf needle (c :: rest) || listContainsSub needle rest

/-- Whether `needle` occurs as a contiguous substring of `haystack`. -/
def strContains (haystack needle : String) : Bool :=
  listContainsSub needle.data haystack.data

/-! ## Delivery Client (EmailService)

The EmailService source file (src/modules/email/email.service.ts) is not
among the provided sources — only the email module import and the calls
from TelegramService are. Its behaviour is modelled from the
specification, section 4.3. -/

/-- Modelled from the spec: the SMTP configuration surface read by the
missing EmailService constructor (host, port, user, password; each may be
absent from the environment). -/
structure SmtpConfig where
  host : Option String
  port : Option Nat
  user : Option String
  password : Option String
deriving DecidableEq, Repr

/-- Modelled from the spec: outcome of constructing the missing
EmailService. `missingSmtpConfig` and `smtpUnreachable` are the two fatal
construction failures of section 4.3. -/
inductive EmailCtorOutcome
  | ok
  | missingSmtpConfig
  | smtpUnreachable
deriving DecidableEq, Repr

/-- Modelled from the spec: construction of the missing EmailService.
Section 4.3: SMTP host, port, user, and password must all be present,
otherwise construction fails fatally with `MissingSmtpConfig`; then SMTP
connectivity is verified, and a verify failure is fatal with
`SmtpUnreachable`. `verifySucceeds` is the outcome of the transport's
verify call. -/
def emailServiceConstruct (cfg : SmtpConfig) (verifySucceeds : Bool) : EmailCtorOutcome :=
  if cfg.host.isNone || cfg.port.isNone || cfg.user.isNone || cfg.password.isNone then
    .missingSmtpConfig
  else if verifySucceeds then .ok
  else .smtpUnreachable

/-- Modelled from the spec: per-call validation of the missing
EmailService.sendEmail — the draft is re-validated against the same shape
as the extraction output (valid `to` address, non-empty subject and body),
and a failure lists every violated field (section 4.3). -/
def sendEmailFieldViolations (d : ExtractedEmail) : List String :=
  (if zodEmailValid d.toAddr then [] else ["to"]) ++
  (if 1 ≤ d.subject.length then [] else ["subject"]) ++
  (if 1 ≤ d.body.length then [] else ["body"])

/-- Modelled from the spec: errors of the missing EmailService.sendEmail
(section 4.3): `invalidEmailData` listing the violated fields, or
`deliveryFailed` carrying the transport's message. -/
inductive SendError
  | invalidEmailData (fields : List String)
  | deliveryFailed (msg : String)
deriving DecidableEq, Repr

/-- Modelled from the spec: the missing EmailService.sendEmail. Validation
failures reject with `InvalidEmailData` before the transport is used;
otherwise the message is submitted and the transport's outcome (an
identifier, or a failure message wrapped in `DeliveryFailed`) is returned.
`transport` is the outcome of the SMTP submission. -/
def sendEmail (d : ExtractedEmail) (transport : Except String String) :
    Except SendError String :=
  match sendEmailFieldViolations d with
  | [] =>
      match transport with
      | .ok msgId => .ok msgId
      | .error m => .error (.deliveryFailed m)
  | violations => .error (.invalidEmailData violations)

/-! ## Transcription Client (WhisperService)

The WhisperService source file (src/modules/whisper/whisper.service.ts)
is not among the provided sources — only the whisper module import and
the call from TelegramService are. Its behaviour is modelled from the
specification, sections 4.1 and 6. -/

/-- Modelled from the spec: the state of the local audio file handed to
the missing WhisperService.transcribe (existence, byte size, extension). -/
structure AudioFile where
  onDisk : Bool
  size : Nat
  ext : String
deriving DecidableEq, Repr

/-- Transcription options (section 3 TranscriptionOptions): language,
response format, temperature and prompt, each optional. -/
structure TranscriptionOptions where
  language : Option String
  responseFormat : Option String
  temperature : Option ℚ
  prompt : Option String
deriving DecidableEq, Repr

/-- Modelled from the spec: the failure modes of the missing
WhisperService.transcribe (section 4.1). -/
inductive WhisperError
  | notFound
  | emptyFile
  | tooLarge
  | unsupportedFormat
  | invalidCredentials
  | rateLimited
  | upstreamTimeout
  | transcriptionFailed (msg : String)
deriving DecidableEq, Repr

/-- Outcome of the multipart upload to the transcription endpoint, as an
explicit parameter: success with the transcript text, HTTP 401, HTTP 429,
a request timeout, or any other failure. -/
inductive UploadOutcome
  | success (text : String)
  | http401
  | http429
  | timedOut
  | otherFailure (msg : String)
deriving DecidableEq, Repr

/-- Observable side effects of a transcribe call: invoking the Transcoder
Adapter (which creates the temporary MP3), copying the source unchanged to
the temporary MP3, performing the network upload, and deleting the
temporary MP3. -/
inductive WhisperEvent
  | transcode
  | copy
  | networkUpload
  | deleteTempMp3
deriving DecidableEq, Repr

/-- The fixed set of supported extensions (section 4.1). -/
def supportedExtensions : List String :=
  [".ogg", ".mp3", ".wav", ".m4a", ".webm"]

/-- Modelled from the spec: translation of an upload outcome into the
transcribe result (section 4.1: 401 is `InvalidCredentials`, 429 is
`RateLimited`, timeout is `UpstreamTimeout`, anything else is
`TranscriptionFailed` with the upstream message). -/
def uploadResult : UploadOutcome → Except WhisperError String
  | .success t => .ok t
  | .http401 => .error .invalidCredentials
  | .http429 => .error .rateLimited
  | .timedOut => .error .upstreamTimeout
  | .otherFailure m => .error (.transcriptionFailed m)

/-- Modelled from the spec: the missing WhisperService.transcribe
(section 4.1). Preconditions are checked in order before any network call
or transcoding: existence, non-emptiness, the size ceiling, the supported
extension set. Then the temporary MP3 is created (by transcoding, or by an
unchanged copy when the source is already `.mp3`), the multipart upload is
performed, and the temporary MP3 is deleted on every exit path — also when
the upload fails, since the deletion is a finally-style cleanup after the
upload step. The result pairs the returned value or error with the trace
of observable events. -/
def transcribe (maxFileSize : Nat) (f : AudioFile) (opts : TranscriptionOptions)
    (upload : UploadOutcome) : Except WhisperError String × List WhisperEvent :=
  if f.onDisk = false then (.error .notFound, [])
  else if f.size = 0 then (.error .emptyFile, [])
  else if maxFileSize < f.size then (.error .tooLarge, [])
  else if supportedExtensions.contains f.ext = false then (.error .unsupportedFormat, [])
  else
    let createEvt := if f.ext = ".mp3" then WhisperEvent.copy else WhisperEvent.transcode
    (uploadResult upload, [createEvt, .networkUpload, .deleteTempMp3])

/-- A value carried in one multipart form field: a string, a number, or
the MP3 file blob. -/
inductive FormValue
  | str (s : String)
  | num (q : ℚ)
  | fileBlob
deriving DecidableEq, Repr

/-- Modelled from the spec: the multipart form built by the missing
WhisperService.sendToWhisper (sections 4.1 and 6): the MP3 file, the fixed
model identifier, and each provided option as the corresponding form
field — `language`, `response_format`, `temperature`, `prompt` — omitted
when not provided. -/
def sendToWhisperForm (opts : TranscriptionOptions) : List (String × FormValue) :=
  [("file", .fileBlob), ("model", .str "whisper-1")] ++
  (match opts.language with
   | some l => [("language", .str l)]
   | none => []) ++
  (match opts.responseFormat with
   | some r => [("response_format", .str r)]
   | none => []) ++
  (match opts.temperature with
   | some t => [("temperature", .num t)]
   | none => []) ++
  (match opts.prompt with
   | some p => [("prompt", .str p)]
   | none => [])

/-! ## Conversation Orchestrator (TelegramService)

Embedding of `TelegramService.handleVoiceMessage` and the confirmation
message handler it registers
(src/src/modules/telegram/telegram.service.ts, lines 135-213). Replies
sent to the chat are abstracted to tags; external call outcomes are
explicit parameters. -/

/-- A reply sent to the user, abstracted to which reply of the source it
is. -/
inductive Reply
  | processing
  | transcriptionText (t : String)
  | draftPresented (d : ExtractedEmail)
  | noEmailFound
  | processingFailed
  | emailSent
  | emailSendFailed
  | emailCancelled
  | reprompt
deriving DecidableEq, Repr

/-- Outcomes of the external calls made during one voice-message pipeline
run: `getFileUrl` (Telegram file-metadata endpoint), the streamed
download, `whisperService.transcribe`, and
`gptService.extractEmailFields`. -/
structure VoiceEnv where
  fileUrl : Except String String
  downloadOk : Bool
  transcription : Except String String
  extraction : Except String GptResponseEmail
deriving Repr

/-- State observable after `handleVoiceMessage` settles: whether the
downloaded `.ogg` file is still on disk, the replies sent, the
confirmation message handlers registered by the run (one per presented
draft, carrying the draft), and whether the returned promise rejected
(the error propagated out of the handler). -/
structure VoiceRunResult where
  voiceFileOnDisk : Bool
  replies : List Reply
  registeredHandlers : List ExtractedEmail
  raised : Bool
deriving DecidableEq, Repr

/-- The try/catch body of `handleVoiceMessage` (source lines 140-206),
before the finally block runs. `fileCreated` records whether the local
voice file was created: `fs.createWriteStream(destination)` inside
`downloadFile` creates it before the network request, so it exists on
every branch of the body, download failures included. The catch block
(lines 203-206) replies with the failure notice and rethrows, so
transcription and download failures leave `raised` true; the inner
try/catch around extraction (lines 161-201) swallows extraction errors
after replying that no email information was found. -/
def handleVoiceTryBody (env : VoiceEnv) : VoiceRunResult :=
  if env.downloadOk = false then
    ⟨true, [.processing, .processingFailed], [], true⟩
  else
    match env.transcription with
    | .error _ => ⟨true, [.processing, .processingFailed], [], true⟩
    | .ok t =>
        match env.extraction with
        | .error _ =>
            ⟨true, [.processing, .transcriptionText t, .noEmailFound], [], false⟩
        | .ok info =>
            ⟨true, [.processing, .transcriptionText t, .draftPresented info.data],
              [info.data], false⟩

/-- The finally block of `handleVoiceMessage` (source lines 207-212):
if the local voice file exists, unlink it; otherwise the filesystem is
untouched. Returns whether the file is on disk afterwards. -/
def cleanupVoiceFile (onDisk : Bool) : Bool :=
  if onDisk = true then false else onDisk

/-- `TelegramService.handleVoiceMessage` (source lines 135-213).
`getFileUrl` is awaited before the try/finally is entered (line 137), so
when it rejects, no file has been created and the finally does not run;
on every other path the body runs and the finally block deletes the voice
file afterwards, whether the body completed or threw. -/
def handleVoiceMessage (env : VoiceEnv) : VoiceRunResult :=
  match env.fileUrl with
  | .error _ => ⟨false, [], [], true⟩
  | .ok _ =>
      let b := handleVoiceTryBody env
      ⟨cleanupVoiceFile b.voiceFileOnDisk, b.replies, b.registeredHandlers, b.raised⟩

/-- JavaScript `String.prototype.toLowerCase` restricted to the comparison
actually made by the handler. -/
def jsToLowerCase (s : String) : String :=
  ⟨s.data.map Char.toLower⟩

/-- The Telegram bot's state relevant to text messages: the registered
confirmation message handlers (in registration order, each carrying the
draft its closure captured), the emails sent so far, and the replies
sent. -/
structure BotState where
  handlers : List ExtractedEmail
  sentEmails : List ExtractedEmail
  replies : List Reply
deriving DecidableEq, Repr

/-- The confirmation message handler registered at source lines 175-196,
processing one text message for the draft its closure captured. On "yes"
(case-insensitive) it calls `emailService.sendEmail` with the draft and
reports the outcome; on "no" it replies that the email is cancelled; on
anything else it re-prompts. No branch unregisters the handler: the
source never calls any removal API on the value returned by `bot.on`, so
`handlers` is left unchanged in every branch. `transport` is the SMTP
submission outcome used by `sendEmail`. -/
def confirmationHandlerStep (transport : Except String String) (st : BotState)
    (draft : ExtractedEmail) (text : String) : BotState :=
  let t := jsToLowerCase text
  if t = "yes" then
    match sendEmail draft transport with
    | .ok _ =>
        { st with sentEmails := st.sentEmails ++ [draft],
                  replies := st.replies ++ [.emailSent] }
    | .error _ => { st with replies := st.replies ++ [.emailSendFailed] }
  else if t = "no" then
    { st with replies := st.replies ++ [.emailCancelled] }
  else
    { st with replies := st.replies ++ [.reprompt] }

/-- Dispatch of one incoming text message by the Telegraf middleware
chain: the first registered message handler runs (the handler never calls
`next`, so later middleware does not run); with no handler registered the
message is ignored. -/
def processTextMessage (transport : Except String String) (st : BotState)
    (text : String) : BotState :=
  match st.handlers with
  | [] => st
  | draft :: _ => confirmationHandlerStep transport st draft text

/-- Sequential processing of a list of incoming text messages. -/
def processTextMessages (transport : Except String String) (st : BotState) :
    List String → BotState
  | [] => st
  | t :: ts => processTextMessages transport (processTextMessage transport st t) ts

/-! ## Helper lemmas -/

/-- With no confirmation handler registered, incoming text messages leave
the bot state untouched — in particular no email is ever sent. -/
theorem processTextMessages_no_handlers (transport : Except String String)
    (st : BotState) (h : st.handlers = []) (texts : List String) :
    processTextMessages transport st texts = st := by
  induction texts generalizing st with
  | nil => rfl
  | cons t ts ih =>
      have hstep : processTextMessage transport st t = st := by
        unfold processTextMessage
        rw [h]
      show processTextMessages transport (processTextMessage transport st t) ts = st
      rw [hstep]
      exact ih st h

/-! ## Claim theorems -/

/-- C1: for every call to WhisperService.transcribe in which the temporary
MP3 file is created (by transcoding or by copying), the temporary MP3 is
deleted on every exit path of transcribe, including paths where the upload
raises after the MP3's creation. -/
theorem transcribe_temp_mp3_deleted_on_every_exit
    (maxFileSize : Nat) (f : AudioFile) (opts : TranscriptionOptions)
    (upload : UploadOutcome)
    (h : WhisperEvent.transcode ∈ (transcribe maxFileSize f opts upload).2 ∨
         WhisperEvent.copy ∈ (transcribe maxFileSize f opts upload).2) :
    WhisperEvent.deleteTempMp3 ∈ (transcribe maxFileSize f opts upload).2 := by
  by_cases h1 : f.onDisk = false
  · simp [transcribe, h1] at h
  · by_cases h2 : f.size = 0
    · simp [transcribe, h1, h2] at h
    · by_cases h3 : maxFileSize < f.size
      · simp [transcribe, h1, h2, h3] at h
      · by_cases h4 : supportedExtensions.contains f.ext = false
        · simp only [supportedExtensions, List.elem_eq_mem, List.contains_cons,
            decide_eq_false_iff_not] at h4
          simp [transcribe, supportedExtensions, h1, h2, h3, h4] at h
        · simp only [supportedExtensions, List.elem_eq_mem, List.contains_cons,
            decide_eq_false_iff_not, not_not] at h4
          simp [transcribe, supportedExtensions, h1, h2, h3, h4]

/-- Witness for C1: a 100-byte existing `.ogg` file under the 25 MB
ceiling whose upload fails with HTTP 429 — an exception path after the
temporary MP3 was created by transcoding — still ends with the temporary
MP3 deleted. -/
theorem transcribe_temp_mp3_deleted_on_every_exit_witness :
    WhisperEvent.deleteTempMp3 ∈
      (transcribe 25000000 ⟨true, 100, ".ogg"⟩ ⟨none, none, none, none⟩ .http429).2 :=
  transcribe_temp_mp3_deleted_on_every_exit 25000000 ⟨true, 100, ".ogg"⟩
    ⟨none, none, none, none⟩ .http429 (Or.inl (by decide))

/-- C2 (code bug): the confirmation message handler the source comments
call a one-time handler is never unregistered. After a draft is presented
and a first "yes" reply is processed (the email is sent once), a second
"yes" reply runs the same still-registered handler and delivers the same
draft again; after a "yes" the handler list is also unchanged. The pending
confirmation is therefore not destroyed by the first affirmative or
negative reply, contradicting the claim and the source's own comment. -/
theorem confirmation_handler_not_one_time :
    (processTextMessages (.ok "mid-1")
        ⟨[⟨"jane@example.com", "Quarterly Update", "Report is ready."⟩], [], []⟩
        ["yes", "yes"]).sentEmails
      = [⟨"jane@example.com", "Quarterly Update", "Report is ready."⟩,
         ⟨"jane@example.com", "Quarterly Update", "Report is ready."⟩] ∧
    (processTextMessages (.ok "mid-1")
        ⟨[⟨"jane@example.com", "Quarterly Update", "Report is ready."⟩], [], []⟩
        ["yes"]).handlers
      = [⟨"jane@example.com", "Quarterly Update", "Report is ready."⟩] := by
  decide

/-- C3: construction of the Delivery Client fails fatally when any of SMTP
host, port, user, or password is absent, and a failing SMTP verify step is
also fatal: construction succeeds exactly when all four values are present
and the verify step succeeds. -/
theorem emailService_construction_requires_config_and_verify
    (cfg : SmtpConfig) (verifySucceeds : Bool) :
    (emailServiceConstruct cfg verifySucceeds = .ok ↔
      (cfg.host.isSome = true ∧ cfg.port.isSome = true ∧ cfg.user.isSome = true ∧
        cfg.password.isSome = true ∧ verifySucceeds = true)) ∧
    ((cfg.host.isNone = true ∨ cfg.port.isNone = true ∨ cfg.user.isNone = true ∨
        cfg.password.isNone = true) →
      emailServiceConstruct cfg verifySucceeds = .missingSmtpConfig) ∧
    (cfg.host.isSome = true → cfg.port.isSome = true → cfg.user.isSome = true →
      cfg.password.isSome = true → verifySucceeds = false →
      emailServiceConstruct cfg verifySucceeds = .smtpUnreachable) := by
  rcases cfg with ⟨h, p, u, w⟩
  cases h <;> cases p <;> cases u <;> cases w <;> cases verifySucceeds <;>
    simp [emailServiceConstruct]

/-- Witness for C3: a configuration missing the host fails with
MissingSmtpConfig, and a complete configuration whose verify step fails
fails with SmtpUnreachable. -/
theorem emailService_construction_requires_config_and_verify_witness :
    emailServiceConstruct ⟨none, some 587, some "user", some "pass"⟩ true
      = .missingSmtpConfig ∧
    emailServiceConstruct ⟨some "smtp.example.com", some 587, some "user", some "pass"⟩ false
      = .smtpUnreachable :=
  ⟨(emailService_construction_requires_config_and_verify
      ⟨none, some 587, some "user", some "pass"⟩ true).2.1 (Or.inl rfl),
   (emailService_construction_requires_config_and_verify
      ⟨some "smtp.example.com", some 587, some "user", some "pass"⟩ false).2.2
      rfl rfl rfl rfl rfl⟩

/-- C4 counterexample: on a language-model response whose draft has the
syntactically invalid address "not-an-email" in the `to` field,
extractEmailFields rejects with the fixed message "Invalid response format
from GPT" — a message in which the string "to" does not even occur, so the
error does not identify the `to` field as the violation. -/
theorem extract_invalid_to_error_does_not_name_to :
    extractEmailFields "email someone about the report"
        (.jsonObject ⟨"not-an-email", "Quarterly Update", "Body text."⟩) ⟨0, 0, 0⟩
      = .error (.badRequest "Invalid response format from GPT") ∧
    strContains "Invalid response format from GPT" "to" = false ∧
    zodEmailValid "not-an-email" = false := by
  decide

/-- C4 (amended): for every draft whose `to` field is not a syntactically
valid email address, extractEmailFields rejects with a validation error
(BadRequestException), but its message is the generic "Invalid response
format from GPT" and does not name the `to` field; sendEmail (modelled
from the spec) rejects with InvalidEmailData listing "to" among the
violated fields. -/
theorem invalid_to_rejected_generic_and_listed
    (text : String) (o : ExtractedEmail) (usage : Usage)
    (transport : Except String String)
    (hne : jsTrimEmpty text = false)
    (hto : zodEmailValid o.toAddr = false) :
    extractEmailFields text (.jsonObject o) usage
        = .error (.badRequest "Invalid response format from GPT") ∧
    ∃ fields, sendEmail o transport = .error (.invalidEmailData fields) ∧
      "to" ∈ fields := by
  have hiss : emailSchemaIssues o = "to: Invalid email address" ::
      ((if 1 ≤ o.subject.length then [] else ["subject: Subject cannot be empty"]) ++
       (if 1 ≤ o.body.length then [] else ["body: Body cannot be empty"])) := by
    simp [emailSchemaIssues, hto]
  constructor
  · simp [extractEmailFields, hne, emailSchemaParse, hiss]
  · refine ⟨"to" :: ((if 1 ≤ o.subject.length then [] else ["subject"]) ++
        (if 1 ≤ o.body.length then [] else ["body"])), ?_, ?_⟩
    · simp [sendEmail, sendEmailFieldViolations, hto]
    · simp

/-- Witness for C4's amended theorem at the concrete draft with `to` set
to "not-an-email". -/
theorem invalid_to_rejected_generic_and_listed_witness :
    jsTrimEmpty "email someone" = false ∧
    zodEmailValid "not-an-email" = false ∧
    (extractEmailFields "email someone"
        (.jsonObject ⟨"not-an-email", "Subject", "Body"⟩) ⟨0, 0, 0⟩
        = .error (.badRequest "Invalid response format from GPT") ∧
      ∃ fields, sendEmail ⟨"not-an-email", "Subject", "Body"⟩ (.ok "id")
          = .error (.invalidEmailData fields) ∧ "to" ∈ fields) :=
  ⟨by decide, by decide,
    invalid_to_rejected_generic_and_listed "email someone"
      ⟨"not-an-email", "Subject", "Body"⟩ ⟨0, 0, 0⟩ (.ok "id")
      (by decide) (by decide)⟩

/-- C5: an existing audio file larger than the configured ceiling makes
transcribe fail with the too-large error and an empty event trace — in
particular no network upload happens; and an existing, non-empty,
within-ceiling file with an unsupported extension makes transcribe fail
with the unsupported-format error with an empty event trace — in
particular before any transcoding attempt. -/
theorem transcribe_prechecks_block_upload_and_transcode
    (maxFileSize : Nat) (f g : AudioFile) (opts : TranscriptionOptions)
    (upload : UploadOutcome)
    (hf : f.onDisk = true) (hsize : maxFileSize < f.size)
    (hg : g.onDisk = true) (hgpos : 0 < g.size) (hgle : g.size ≤ maxFileSize)
    (hgext : supportedExtensions.contains g.ext = false) :
    (transcribe maxFileSize f opts upload = (.error .tooLarge, []) ∧
      WhisperEvent.networkUpload ∉ (transcribe maxFileSize f opts upload).2) ∧
    (transcribe maxFileSize g opts upload = (.error .unsupportedFormat, []) ∧
      WhisperEvent.transcode ∉ (transcribe maxFileSize g opts upload).2) := by
  have hfz : ¬(f.size = 0) := by omega
  have hgz : ¬(g.size = 0) := by omega
  have hglt : ¬(maxFileSize < g.size) := by omega
  have hgmem : g.ext ∉ supportedExtensions := by
    simpa using hgext
  constructor
  · constructor <;> simp [transcribe, hf, hfz, hsize]
  · constructor <;> simp [transcribe, hg, hgz, hglt, hgmem]

/-- Witness for C5: a 26 MB existing `.ogg` file against the 25 MB ceiling
fails with tooLarge and no upload event; a 1000-byte existing `.txt` file
fails with unsupportedFormat and no transcode event. -/
theorem transcribe_prechecks_block_upload_and_transcode_witness :
    (transcribe 25000000 ⟨true, 26000000, ".ogg"⟩ ⟨none, none, none, none⟩
        (.success "t") = (.error .tooLarge, []) ∧
      WhisperEvent.networkUpload ∉
        (transcribe 25000000 ⟨true, 26000000, ".ogg"⟩ ⟨none, none, none, none⟩
          (.success "t")).2) ∧
    (transcribe 25000000 ⟨true, 1000, ".txt"⟩ ⟨none, none, none, none⟩
        (.success "t") = (.error .unsupportedFormat, []) ∧
      WhisperEvent.transcode ∉
        (transcribe 25000000 ⟨true, 1000, ".txt"⟩ ⟨none, none, none, none⟩
          (.success "t")).2) :=
  transcribe_prechecks_block_upload_and_transcode 25000000
    ⟨true, 26000000, ".ogg"⟩ ⟨true, 1000, ".txt"⟩ ⟨none, none, none, none⟩
    (.success "t") (by decide) (by decide) (by decide) (by decide) (by decide)
    (by decide)

/-- C6: every provided transcription option appears as the corresponding
form field of the multipart upload built for the transcription endpoint —
language, response_format, temperature (also when the provided temperature
is 0), and prompt. -/
theorem sendToWhisperForm_includes_provided_options (opts : TranscriptionOptions) :
    (∀ l, opts.language = some l →
      ("language", FormValue.str l) ∈ sendToWhisperForm opts) ∧
    (∀ r, opts.responseFormat = some r →
      ("response_format", FormValue.str r) ∈ sendToWhisperForm opts) ∧
    (∀ t, opts.temperature = some t →
      ("temperature", FormValue.num t) ∈ sendToWhisperForm opts) ∧
    (∀ p, opts.prompt = some p →
      ("prompt", FormValue.str p) ∈ sendToWhisperForm opts) := by
  obtain ⟨lg, rf, tp, pm⟩ := opts
  refine ⟨?_, ?_, ?_, ?_⟩ <;> intro x hx <;>
    simp only at hx <;> subst hx <;> simp [sendToWhisperForm]

/-- Witness for C6: with every option provided and temperature 0, each
corresponding form field — including temperature 0 — is present. -/
theorem sendToWhisperForm_includes_provided_options_witness :
    ("language", FormValue.str "en") ∈
      sendToWhisperForm ⟨some "en", some "text", some 0, some "hint"⟩ ∧
    ("response_format", FormValue.str "text") ∈
      sendToWhisperForm ⟨some "en", some "text", some 0, some "hint"⟩ ∧
    ("temperature", FormValue.num 0) ∈
      sendToWhisperForm ⟨some "en", some "text", some 0, some "hint"⟩ ∧
    ("prompt", FormValue.str "hint") ∈
      sendToWhisperForm ⟨some "en", some "text", some 0, some "hint"⟩ :=
  ⟨(sendToWhisperForm_includes_provided_options _).1 "en" rfl,
   (sendToWhisperForm_includes_provided_options _).2.1 "text" rfl,
   (sendToWhisperForm_includes_provided_options _).2.2.1 0 rfl,
   (sendToWhisperForm_includes_provided_options _).2.2.2 "hint" rfl⟩

/-- C7: when the extraction call fails for any reason in an otherwise
successful run, the handler replies that no email information was found,
completes without raising (the error does not propagate out of the
voice-message handler), registers no confirmation handler, and therefore
no later text message can cause the Delivery Client to send anything. -/
theorem extraction_failure_recovers_to_idle
    (env : VoiceEnv) (u t e : String)
    (hu : env.fileUrl = .ok u) (hd : env.downloadOk = true)
    (ht : env.transcription = .ok t) (he : env.extraction = .error e) :
    (handleVoiceMessage env).raised = false ∧
    (handleVoiceMessage env).replies
      = [.processing, .transcriptionText t, .noEmailFound] ∧
    (handleVoiceMessage env).registeredHandlers = [] ∧
    ∀ transport texts,
      (processTextMessages transport
          ⟨(handleVoiceMessage env).registeredHandlers, [], []⟩ texts).sentEmails
        = [] := by
  have hh : handleVoiceMessage env =
      ⟨false, [.processing, .transcriptionText t, .noEmailFound], [], false⟩ := by
    simp [handleVoiceMessage, hu, handleVoiceTryBody, hd, ht, he, cleanupVoiceFile]
  refine ⟨by rw [hh], by rw [hh], by rw [hh], ?_⟩
  intro transport texts
  rw [hh, processTextMessages_no_handlers transport ⟨[], [], []⟩ rfl texts]

/-- Witness for C7: a concrete run whose extraction fails completes
without raising, and a later "yes" sends nothing. -/
theorem extraction_failure_recovers_to_idle_witness :
    (handleVoiceMessage ⟨.ok "u", true, .ok "hi", .error "none"⟩).raised = false ∧
    (processTextMessages (.ok "id")
        ⟨(handleVoiceMessage ⟨.ok "u", true, .ok "hi", .error "none"⟩).registeredHandlers,
          [], []⟩ ["yes"]).sentEmails = [] :=
  ⟨(extraction_failure_recovers_to_idle ⟨.ok "u", true, .ok "hi", .error "none"⟩
      "u" "hi" "none" rfl rfl rfl rfl).1,
   (extraction_failure_recovers_to_idle ⟨.ok "u", true, .ok "hi", .error "none"⟩
      "u" "hi" "none" rfl rfl rfl rfl).2.2.2 (.ok "id") ["yes"]⟩

/-- C8: after handleVoiceMessage settles, the locally downloaded voice
file is absent, whatever the outcomes of the download, transcription and
extraction steps — success, failure, and rethrown (uncaught) error alike:
every path from the download onward runs the finally-block cleanup, and on
the only path that skips the finally (getFileUrl rejecting) the file was
never created. -/
theorem voice_file_absent_after_handler (env : VoiceEnv) :
    (handleVoiceMessage env).voiceFileOnDisk = false := by
  rcases henv : env.fileUrl with e | u
  · simp [handleVoiceMessage, henv]
  · cases hb : (handleVoiceTryBody env).voiceFileOnDisk <;>
      simp [handleVoiceMessage, henv, cleanupVoiceFile, hb]

end VoxRelay
